import Mathlib

/-!
Shallow embedding of `src/markupflow/__init__.py` (the `markupflow` HTML
builder).  Pure helpers (`_convert_attr_name`, `html.escape` as used by
`_escape_attr_value` / `_escape_text`) become Lean functions on
`String`/`List Char`; the mutable `_TagContext` and `Fragment` objects become
records, and each method becomes a state-passing function.  Fallible methods
return `Except MfError _` (or `Option` where Python would hit an
`IndexError`).  Python attribute values (`str | int | float | bool | None`)
are modelled by `Option PyVal`, where a `PyVal` records exactly the two
observations the source ever makes of a non-`None` value: its `str()` display
text and its truthiness.  Python `dict`s (insertion ordered) are association
lists with `dictSet` (update in place, append new keys) and `dictGetD`
(`dict.get`, returning `none` for a missing key, like Python's `None`).
-/

set_option maxHeartbeats 1000000

/-- Abstraction of a non-`None` Python scalar: the source only ever observes
`str(value)` (via f-strings and `html.escape(str(value))`) and the value's
truthiness (in `add_class`), so a value is modelled by exactly those two. -/
structure PyVal where
  toStr : String
  truthy : Bool
  deriving DecidableEq, Repr

/-- The `PyVal` of a Python `str`: `str(s) = s`, and a string is truthy
exactly when it is non-empty. -/
def PyVal.ofString (s : String) : PyVal :=
  ⟨s, !s.isEmpty⟩

/-- `AttrValue = str | int | float | bool | None` from the source;
`none` models Python `None`. -/
abbrev AttrValue := Option PyVal

/-- Truthiness of an `AttrValue` (`None` is falsy). -/
def pyTruthy : AttrValue → Bool
  | none => false
  | some v => v.truthy

/-- `str()` of an `AttrValue` as used in f-strings (`str(None) = "None"`,
though the source only stringifies truthy values). -/
def pyStr : AttrValue → String
  | none => "None"
  | some v => v.toStr

/-- Python `a or b`: `a` if truthy, else `b`. -/
def pyOr (a b : AttrValue) : AttrValue :=
  if pyTruthy a then a else b

/-- The three exception classes of the source (`TagAlreadyOpenedError`,
`NoTagContextError`, `UnclosedTagsError`). -/
inductive MfError where
  | tagAlreadyOpened
  | noTagContext
  | unclosedTags
  deriving DecidableEq, Repr

deriving instance DecidableEq for Except

/-- Python `d[k] = v` on an insertion-ordered dict rendered as an association
list: overwrite the (first) entry with key `k` in place, else append. -/
def dictSet (l : List (String × AttrValue)) (k : String) (v : AttrValue) :
    List (String × AttrValue) :=
  match l with
  | [] => [(k, v)]
  | (k1, v1) :: rest =>
      if k1 = k then (k, v) :: rest else (k1, v1) :: dictSet rest k v

/-- Python `d.get(k)`: the stored value, or `None` when the key is absent. -/
def dictGetD (l : List (String × AttrValue)) (k : String) : AttrValue :=
  match l with
  | [] => none
  | (k1, v1) :: rest => if k1 = k then v1 else dictGetD rest k

/-- Regex `\w` for the ASCII identifiers used as attribute names:
a letter, a digit, or an underscore. -/
def isWordChar (c : Char) : Bool :=
  c.isAlphanum || c = '_'

/-- `re.sub(r"(\w)_(\w)", r"\1-\2", name)` on the character list: replace
non-overlapping matches left to right; after a match the scan resumes past
the trailing word character, as `re.sub` does. -/
def pySubFuel : Nat → List Char → List Char
  | 0, l => l
  | fuel + 1, a :: u :: b :: rest =>
      if u = '_' ∧ isWordChar a ∧ isWordChar b then
        a :: '-' :: b :: pySubFuel fuel rest
      else
        a :: pySubFuel fuel (u :: b :: rest)
  | _ + 1, l => l

/-- The substitution at fuel `l.length`: every step consumes one unit of fuel
and at least one list element, so this fuel is never exhausted and the fuel
argument is only a termination device. -/
def pySubUnderscore (l : List Char) : List Char :=
  pySubFuel l.length l

/-- `_convert_attr_name` from the source (the memoizing cache is pure and is
dropped): the `class_`/`classes` aliases map to `class`; a trailing
underscore is stripped; otherwise the underscore substitution runs. -/
def convertAttrName (name : String) : String :=
  if name = "class_" ∨ name = "classes" then "class"
  else if name.data.getLast? = some '_' then String.mk name.data.dropLast
  else String.mk (pySubUnderscore name.data)

/-- One character of `html.escape(s, quote=True)`; the sequential `replace`
calls of `html.escape` (ampersand first) act char-wise. -/
def escAttrChar (c : Char) : String :=
  if c = '&' then "&amp;"
  else if c = '<' then "&lt;"
  else if c = '>' then "&gt;"
  else if c = '"' then "&quot;"
  else if c = Char.ofNat 39 then "&#x27;"
  else String.singleton c

/-- One character of `html.escape(s, quote=False)` (quotes untouched). -/
def escTextChar (c : Char) : String :=
  if c = '&' then "&amp;"
  else if c = '<' then "&lt;"
  else if c = '>' then "&gt;"
  else String.singleton c

/-- `html.escape(s, quote=True)`. -/
def pyHtmlEscapeAttr (s : String) : String :=
  String.join (s.data.map escAttrChar)

/-- `html.escape(s, quote=False)`. -/
def pyHtmlEscapeText (s : String) : String :=
  String.join (s.data.map escTextChar)

/-- `_escape_attr_value`: `None` renders empty, otherwise escape `str(v)`
with quotes escaped. -/
def escapeAttrValue : AttrValue → String
  | none => ""
  | some v => pyHtmlEscapeAttr v.toStr

/-- `_escape_text`: `None` renders empty, otherwise escape `str(v)` leaving
quotes alone. -/
def escapeText : AttrValue → String
  | none => ""
  | some v => pyHtmlEscapeText v.toStr

/-- `_TagContext` minus its back-reference to the owning `Fragment` (the
state-passing style hands the fragment around explicitly instead). -/
structure TagContext where
  tagName : String
  selfClosing : Bool
  attrs : List (String × AttrValue)
  opened : Bool
  deriving DecidableEq, Repr

/-- The attribute part of an opening tag in `_ensure_opened`: a single
leading space when the attribute dict is non-empty (even if every value is
`None`), then the non-`None` attributes, space separated, each rendered as
`normalizedName="escapedValue"`. -/
def attrString (attrs : List (String × AttrValue)) : String :=
  if attrs.isEmpty then ""
  else
    " " ++ String.intercalate " "
      ((attrs.filter (fun kv => kv.2.isSome)).map
        (fun kv => convertAttrName kv.1 ++ "=\"" ++ escapeAttrValue kv.2 ++ "\""))

/-- The opening-tag text built by `_ensure_opened`: `<name…attrs… />` for a
self-closing context, `<name…attrs…>` otherwise. -/
def TagContext.openingText (ctx : TagContext) : String :=
  if ctx.selfClosing then "<" ++ ctx.tagName ++ attrString ctx.attrs ++ " />"
  else "<" ++ ctx.tagName ++ attrString ctx.attrs ++ ">"

/-- `_TagContext.add_attr`: refuse when already opened, else store the value
under the RAW (unnormalized) name. -/
def TagContext.add_attr (ctx : TagContext) (name : String) (value : AttrValue) :
    Except MfError TagContext :=
  if ctx.opened then .error .tagAlreadyOpened
  else .ok { ctx with attrs := dictSet ctx.attrs name value }

/-- The class read performed by `_TagContext.add_class`:
`attrs.get("class_") or attrs.get("class")`. -/
def classRead (attrs : List (String × AttrValue)) : AttrValue :=
  pyOr (dictGetD attrs "class_") (dictGetD attrs "class")

/-- `_TagContext.add_class`: refuse when already opened; else append the new
token to the existing truthy class value (read from `class_` then `class`),
storing the result under the `class_` key. -/
def TagContext.add_class (ctx : TagContext) (className : String) :
    Except MfError TagContext :=
  if ctx.opened then .error .tagAlreadyOpened
  else
    let existing := classRead ctx.attrs
    if pyTruthy existing then
      let nv : AttrValue := some (PyVal.ofString (pyStr existing ++ " " ++ className))
      .ok { ctx with attrs := dictSet ctx.attrs "class_" nv }
    else
      .ok { ctx with attrs := dictSet ctx.attrs "class_" (some (PyVal.ofString className)) }

/-- `Fragment` (and `Document`, which adds nothing): the output chunk buffer
and the two stacks.  Stacks have their top at the head of the list. -/
structure Fragment where
  parts : List String
  tagStack : List String
  contextStack : List TagContext
  deriving DecidableEq, Repr

/-- `Fragment.__init__`: everything empty. -/
def Fragment.init : Fragment :=
  ⟨[], [], []⟩

/-- The `self._context_stack[-1]._ensure_opened()` pattern guarding
`tag`/`text`/`raw`/`fragment`: materialize the innermost open context if
there is one and it is still pending. -/
def Fragment.ensureTopOpened (f : Fragment) : Fragment :=
  match f.contextStack with
  | [] => f
  | ctx :: rest =>
      if ctx.opened then f
      else { f with parts := f.parts ++ [ctx.openingText],
                    contextStack := { ctx with opened := true } :: rest }

/-- Python `str.lower()`, character by character. -/
def strLower (s : String) : String :=
  String.mk (s.data.map Char.toLower)

/-- The void-element set of `Fragment.tag`. -/
def voidTags : List String :=
  ["area", "base", "br", "col", "embed", "hr", "img", "input", "link",
   "meta", "param", "source", "track", "wbr"]

/-- `tag_name.lower() in {…}`. -/
def isVoid (name : String) : Bool :=
  voidTags.contains (strLower name)

/-- `Fragment.tag`: materialize the current innermost context, then hand back
a fresh pending context (the attrs copy is the identity here); nothing is
pushed onto either stack. -/
def Fragment.tag (f : Fragment) (tagName : String)
    (attrs : List (String × AttrValue)) : Fragment × TagContext :=
  (f.ensureTopOpened, ⟨tagName, isVoid tagName, attrs, false⟩)

/-- `_TagContext.__enter__`: a self-closing context materializes immediately
(no stack interaction); a normal one pushes its name and itself. -/
def Fragment.enterScope (f : Fragment) (ctx : TagContext) :
    Fragment × TagContext :=
  if ctx.selfClosing then
    if ctx.opened then (f, ctx)
    else ({ f with parts := f.parts ++ [ctx.openingText] },
          { ctx with opened := true })
  else
    ({ f with tagStack := ctx.tagName :: f.tagStack,
              contextStack := ctx :: f.contextStack }, ctx)

/-- `_TagContext.__exit__` in the well-nested use the `with` statement
guarantees (the exiting context is the stack top): self-closing is a no-op;
otherwise force the top open, pop the tag name, append `</poppedName>`, pop
the context.  `none` models the `IndexError` of popping an empty stack. -/
def Fragment.exitScope (f : Fragment) (selfClosing : Bool) : Option Fragment :=
  if selfClosing then some f
  else
    match f.contextStack, f.tagStack with
    | ctx :: restC, n :: restT =>
        let parts1 := if ctx.opened then f.parts else f.parts ++ [ctx.openingText]
        some ⟨parts1 ++ ["</" ++ n ++ ">"], restT, restC⟩
    | _, _ => none

/-- `Fragment.text`: `None` is a no-op; otherwise materialize the innermost
context and append the escaped text. -/
def Fragment.text (f : Fragment) (content : AttrValue) : Fragment :=
  match content with
  | none => f
  | some v =>
      let f1 := f.ensureTopOpened
      { f1 with parts := f1.parts ++ [pyHtmlEscapeText v.toStr] }

/-- `Fragment.raw`: like `text` but append `str(content)` unescaped. -/
def Fragment.raw (f : Fragment) (content : AttrValue) : Fragment :=
  match content with
  | none => f
  | some v =>
      let f1 := f.ensureTopOpened
      { f1 with parts := f1.parts ++ [v.toStr] }

/-- `Fragment.attr`: fail without a current context, else delegate to the top
context's `add_attr`. -/
def Fragment.attr (f : Fragment) (name : String) (value : AttrValue) :
    Except MfError Fragment :=
  match f.contextStack with
  | [] => .error .noTagContext
  | ctx :: rest =>
      (ctx.add_attr name value).map fun ctx1 =>
        { f with contextStack := ctx1 :: rest }

/-- `Fragment.classes`: fail without a current context, else delegate to the
top context's `add_class`. -/
def Fragment.classes (f : Fragment) (className : String) :
    Except MfError Fragment :=
  match f.contextStack with
  | [] => .error .noTagContext
  | ctx :: rest =>
      (ctx.add_class className).map fun ctx1 =>
        { f with contextStack := ctx1 :: rest }

/-- `Fragment.render`: `UnclosedTagsError` when the tag stack is non-empty,
else the concatenation of the chunks.  The source reads but never writes the
state, which the pure signature records. -/
def Fragment.render (f : Fragment) : Except MfError String :=
  if f.tagStack.isEmpty then .ok (String.join f.parts)
  else .error .unclosedTags

/-- `Fragment.clear`: back to the initial empty state. -/
def Fragment.clear (_f : Fragment) : Fragment :=
  ⟨[], [], []⟩

/-- `Fragment.__str__`, which is literally `return self.render()`. -/
def Fragment.toStr (f : Fragment) : Except MfError String :=
  f.render

/-- `Fragment.fragment(other)` (the spec's `embed`): materialize the current
context first, then append `other.render()`; a render failure propagates
after that materialization, which the returned pair records. -/
def Fragment.embed (f : Fragment) (other : Fragment) :
    Fragment × Option MfError :=
  let f1 := f.ensureTopOpened
  match other.render with
  | .error e => (f1, some e)
  | .ok s => ({ f1 with parts := f1.parts ++ [s] }, none)

/-- The spec's stack invariant: the two stacks always have equal length. -/
abbrev StackInv (f : Fragment) : Prop :=
  f.tagStack.length = f.contextStack.length

example : convertAttrName "data_value" = "data-value" := by decide
example : convertAttrName "class_" = "class" := by decide
example : convertAttrName "classes" = "class" := by decide
example : convertAttrName "for_" = "for" := by decide
example : convertAttrName "a_b_c" = "a-b_c" := by decide
example : convertAttrName "a-b_c" = "a-b-c" := by decide
example : convertAttrName "a__b" = "a-_b" := by decide
example : pyHtmlEscapeAttr "a&\"b" = "a&amp;&quot;b" := by decide
example :
    TagContext.openingText ⟨"div", false, [("title", (none : AttrValue))], false⟩
      = "<div >" := by decide

example :
    (((TagContext.mk "div" false [] false).add_attr "class_" (some (PyVal.ofString "a"))
        >>= fun c => c.add_attr "class" (some (PyVal.ofString "b"))).map
      TagContext.openingText)
      = .ok "<div class=\"a\" class=\"b\">" := by decide

example :
    (((((Fragment.init.tag "div" [("class_", some (PyVal.ofString "panel"))]).1.enterScope
            (Fragment.init.tag "div" [("class_", some (PyVal.ofString "panel"))]).2).1.classes
          "admin").toOption.bind
        (fun f3 => (f3.classes "active").toOption)).bind
      (fun f4 =>
        ((f4.text (some (PyVal.ofString "Panel Content"))).exitScope false).map
          Fragment.render))
      = some (Except.ok "<div class=\"panel admin active\">Panel Content</div>") := by
  decide

example :
    ((((Fragment.init.tag "div" [("title", (none : AttrValue))]).1.enterScope
        (Fragment.init.tag "div" [("title", (none : AttrValue))]).2).1.exitScope false).map
      Fragment.render)
      = some (Except.ok "<div ></div>") := by decide

example :
    (Fragment.attr
      ((((Fragment.init.tag "div" []).1.enterScope (Fragment.init.tag "div" []).2).1.tag
          "span" []).1)
      "id" (some (PyVal.ofString "x")))
      = .error .tagAlreadyOpened := by decide

example :
    (Fragment.attr ((Fragment.init.tag "div" []).1.enterScope (Fragment.init.tag "div" []).2).1
      "id" (some (PyVal.ofString "x"))).isOk = true := by decide

theorem dictSet_dictSet (l : List (String × AttrValue)) (k : String) (v1 v2 : AttrValue) :
    dictSet (dictSet l k v1) k v2 = dictSet l k v2 := by
  induction l with
  | nil => simp [dictSet]
  | cons hd tl ih =>
      rcases hd with ⟨k1, w⟩
      by_cases h : k1 = k
      · subst h; simp [dictSet]
      · simp [dictSet, h, ih]

theorem ensureTopOpened_tagStack (f : Fragment) :
    (f.ensureTopOpened).tagStack = f.tagStack := by
  rcases f with ⟨p, t, c⟩
  cases c with
  | nil => rfl
  | cons hd tl => by_cases h : hd.opened <;> simp [Fragment.ensureTopOpened, h]

theorem ensureTopOpened_ctxLen (f : Fragment) :
    (f.ensureTopOpened).contextStack.length = f.contextStack.length := by
  rcases f with ⟨p, t, c⟩
  cases c with
  | nil => rfl
  | cons hd tl => by_cases h : hd.opened <;> simp [Fragment.ensureTopOpened, h]

theorem render_isOk (f : Fragment) : (f.render).isOk = f.tagStack.isEmpty := by
  rcases ht : f.tagStack with _ | ⟨n, rest⟩ <;>
    simp [Fragment.render, ht, Except.isOk, Except.toBool]

theorem filter_idem_local {α : Type} (p : α → Bool) (l : List α) :
    (l.filter p).filter p = l.filter p := by
  induction l with
  | nil => rfl
  | cons hd tl ih => by_cases h : p hd <;> simp [List.filter_cons, h, ih]

theorem attrString_filter (attrs : List (String × AttrValue))
    (h : attrs = [] ∨ attrs.filter (fun kv => kv.2.isSome) ≠ []) :
    attrString (attrs.filter (fun kv => kv.2.isSome)) = attrString attrs := by
  rcases h with h | h
  · subst h; rfl
  · have hne : attrs ≠ [] := by rintro rfl; simp at h
    have h1 : attrs.isEmpty = false := by cases attrs <;> simp_all
    have h2 : (attrs.filter fun kv => kv.2.isSome).isEmpty = false := by
      rcases hF : attrs.filter fun kv => kv.2.isSome with _ | ⟨x, xs⟩
      · exact absurd hF h
      · rw [hF]; rfl
    unfold attrString
    simp [h1, h2, filter_idem_local]

theorem pySubFuel_no_us :
    ∀ (fuel : Nat) (l : List Char), (∀ c ∈ l, c ≠ '_') → pySubFuel fuel l = l := by
  intro fuel
  induction fuel with
  | zero => intro l _; rfl
  | succ n ih =>
      intro l h
      match l with
      | [] => rfl
      | [a] => rfl
      | [a, b] => rfl
      | a :: u :: b :: rest =>
          have hu : u ≠ '_' := h u (by simp)
          simp only [pySubFuel, hu, false_and, if_false]
          exact List.cons_eq_cons.mpr
            ⟨rfl, ih (u :: b :: rest) (fun c hc => h c (List.mem_cons_of_mem a hc))⟩

theorem pySub_no_us (l : List Char) (h : ∀ c ∈ l, c ≠ '_') : pySubUnderscore l = l :=
  pySubFuel_no_us l.length l h

theorem mem_of_getLast?_char :
    ∀ (l : List Char) (a : Char), l.getLast? = some a → a ∈ l := by
  intro l
  induction l with
  | nil => intro a h; simp [List.getLast?] at h
  | cons hd tl ih =>
      intro a h
      cases tl with
      | nil => simp [List.getLast?] at h; simp [h]
      | cons hd2 tl2 =>
          rw [List.getLast?_cons_cons] at h
          exact List.mem_cons_of_mem hd (ih a h)

/-- C1 (counterexample): `add_attr` stores under the raw name, so inserting
under `class_` and then under `class` produces two separate entries whose
names both normalize to `class`, and the materialized opening tag carries the
`class` attribute twice — refuting "at most one attribute per normalized
name" and "stores the value under the normalized attribute name". -/
theorem add_attr_class_alias_duplicate_cex :
    (((TagContext.mk "div" false [] false).add_attr "class_" (some (PyVal.ofString "a"))
        >>= fun c => c.add_attr "class" (some (PyVal.ofString "b")))
      = .ok ⟨"div", false,
          [("class_", some (PyVal.ofString "a")), ("class", some (PyVal.ofString "b"))],
          false⟩) ∧
    (((TagContext.mk "div" false [] false).add_attr "class_" (some (PyVal.ofString "a"))
        >>= fun c => c.add_attr "class" (some (PyVal.ofString "b"))).map
      TagContext.openingText
      = .ok "<div class=\"a\" class=\"b\">") ∧
    convertAttrName "class_" = convertAttrName "class" := by
  refine ⟨by decide, by decide, by decide⟩

/-- C1 (amended): on a Pending context, `requestAttribute` inserts/overwrites
under the RAW attribute name (`attributes[name] = value`); a repeated insert
under the same raw spelling overwrites that one entry.  Normalization happens
only at materialization, so raw spellings that normalize alike stay separate
entries (see the counterexample). -/
theorem add_attr_raw_key_overwrite (ctx : TagContext) (n : String) (v1 v2 : AttrValue)
    (h : ctx.opened = false) :
    ctx.add_attr n v1 = .ok { ctx with attrs := dictSet ctx.attrs n v1 } ∧
    (ctx.add_attr n v1 >>= fun c1 => c1.add_attr n v2)
      = .ok { ctx with attrs := dictSet ctx.attrs n v2 } := by
  constructor
  · simp [TagContext.add_attr, h]
  · simp [TagContext.add_attr, h, dictSet_dictSet, Bind.bind, Except.bind]

/-- C1 witness: the amended theorem at a concrete Pending context. -/
theorem add_attr_raw_key_overwrite_witness :
    (TagContext.mk "div" false [] false).add_attr "id" (some (PyVal.ofString "a"))
      = .ok ⟨"div", false, [("id", some (PyVal.ofString "a"))], false⟩ ∧
    ((TagContext.mk "div" false [] false).add_attr "id" (some (PyVal.ofString "a"))
        >>= fun c1 => c1.add_attr "id" (some (PyVal.ofString "b")))
      = .ok ⟨"div", false, [("id", some (PyVal.ofString "b"))], false⟩ :=
  add_attr_raw_key_overwrite ⟨"div", false, [], false⟩ "id"
    (some (PyVal.ofString "a")) (some (PyVal.ofString "b")) rfl

/-- C2 (counterexample): a tag whose only attribute is null renders as
`<div >` (with a space), not `<div>`: the attribute itself is omitted but the
leading space is emitted whenever the attribute dict is non-empty, as the
repository's own test `test_none_content_handling` expects. -/
theorem null_attr_trailing_space_cex :
    TagContext.openingText ⟨"div", false, [("title", (none : AttrValue))], false⟩
      = "<div >" ∧
    TagContext.openingText ⟨"div", false, [("title", (none : AttrValue))], false⟩
      ≠ "<div>" ∧
    ((((Fragment.init.tag "div" [("title", (none : AttrValue))]).1.enterScope
        (Fragment.init.tag "div" [("title", (none : AttrValue))]).2).1.exitScope false).map
      Fragment.render)
      = some (Except.ok "<div ></div>") := by
  refine ⟨by decide, by decide, by decide⟩

/-- C2 (amended): materialization omits every null-valued attribute entirely
(never rendering `attr=""`): whenever at least one attribute survives (or the
mapping is empty), the opening tag equals the one built from the mapping with
the null entries removed.  When the mapping is non-empty but every value is
null, only the stray space after the tag name remains: `<div >`. -/
theorem null_attrs_omitted_amended :
    (∀ (name : String) (sc o : Bool) (attrs : List (String × AttrValue)),
      (attrs = [] ∨ attrs.filter (fun kv => kv.2.isSome) ≠ []) →
      TagContext.openingText ⟨name, sc, attrs, o⟩
        = TagContext.openingText ⟨name, sc, attrs.filter (fun kv => kv.2.isSome), o⟩) ∧
    TagContext.openingText ⟨"div", false, [("title", (none : AttrValue))], false⟩
      = "<div >" := by
  constructor
  · intro name sc o attrs h
    simp only [TagContext.openingText]
    rw [attrString_filter attrs h]
  · decide

/-- C2 witness: a null `title` next to a real `id` disappears from the
rendered opening tag. -/
theorem null_attrs_omitted_amended_witness :
    TagContext.openingText
        ⟨"div", false,
          [("id", some (PyVal.ofString "x")), ("title", (none : AttrValue))], false⟩
      = TagContext.openingText
          ⟨"div", false, [("id", some (PyVal.ofString "x"))], false⟩ :=
  null_attrs_omitted_amended.1 "div" false false
    [("id", some (PyVal.ofString "x")), ("title", none)] (Or.inr (by decide))

/-- C3 (counterexample): normalization is NOT idempotent.  `re.sub` consumes
the trailing word character of each match, so `a_b_c` converts to `a-b_c` in
one application and a second application changes it further to `a-b-c`. -/
theorem convert_attr_name_not_idempotent_cex :
    convertAttrName "a_b_c" = "a-b_c" ∧
    convertAttrName "a-b_c" = "a-b-c" ∧
    convertAttrName (convertAttrName "a_b_c") ≠ convertAttrName "a_b_c" := by
  refine ⟨by decide, by decide, by decide⟩

/-- C3 (amended): one application rewrites "word, filler, word" runs
non-overlappingly left to right, so non-chained names such as `data_value`
are fully converted and fixed by a further application, and any
underscore-free name other than the `classes` alias is already a fixed
point; but chained runs are only partially converted (`a_b_c` to `a-b_c`),
so normalization is not idempotent in general. -/
theorem convert_attr_name_single_pass :
    (∀ name : String, name ≠ "classes" → (∀ c ∈ name.data, c ≠ '_') →
      convertAttrName name = name) ∧
    convertAttrName "data_value" = "data-value" ∧
    convertAttrName (convertAttrName "data_value") = convertAttrName "data_value" ∧
    convertAttrName "a_b_c" = "a-b_c" ∧
    convertAttrName "a-b_c" = "a-b-c" := by
  refine ⟨?_, by decide, by decide, by decide, by decide⟩
  intro name hne h
  have h1 : ¬(name = "class_" ∨ name = "classes") := by
    rintro (h1 | h1)
    · exact h '_' (by rw [h1]; decide) rfl
    · exact hne h1
  have h2 : ¬name.data.getLast? = some '_' := fun hl =>
    h '_' (mem_of_getLast?_char name.data '_' hl) rfl
  simp only [convertAttrName, h1, h2, if_false]
  rw [pySub_no_us name.data h]

/-- C3 witness: the general fixed-point clause at a concrete hyphenated
name. -/
theorem convert_attr_name_single_pass_witness :
    convertAttrName "data-role" = "data-role" :=
  convert_attr_name_single_pass.1 "data-role" (by decide) (by decide)

/-- C4 (counterexample): calling `tag` and discarding the result is NOT a
no-op.  With a pending `div` scope open, `setAttribute` succeeds; after a
discarded `tag "span"` call the same `setAttribute` fails with
`TagAlreadyOpened`, and the output buffer has changed (the enclosing `<div>`
was written). -/
theorem discarded_tag_materializes_parent_cex :
    ((Fragment.attr
        ((Fragment.init.tag "div" []).1.enterScope (Fragment.init.tag "div" []).2).1
        "id" (some (PyVal.ofString "x"))).isOk = true) ∧
    (Fragment.attr
        ((((Fragment.init.tag "div" []).1.enterScope (Fragment.init.tag "div" []).2).1.tag
            "span" []).1)
        "id" (some (PyVal.ofString "x")) = .error .tagAlreadyOpened) ∧
    ((((Fragment.init.tag "div" []).1.enterScope (Fragment.init.tag "div" []).2).1.tag
        "span" []).1.parts
      ≠ ((Fragment.init.tag "div" []).1.enterScope (Fragment.init.tag "div" []).2).1.parts)
    := by
  refine ⟨by decide, by decide, by decide⟩

/-- C4 (amended): `tag` pushes nothing onto either stack and appends nothing
for the context it creates, and with no open context it leaves the Builder
unchanged; but its one side effect is forcing the innermost open context to
materialize, after which any `setAttribute` on that enclosing tag fails with
`TagAlreadyOpened`. -/
theorem tag_effect_amended (f : Fragment) (n : String)
    (a : List (String × AttrValue)) :
    (f.tag n a).1 = f.ensureTopOpened ∧
    (f.tag n a).1.tagStack = f.tagStack ∧
    (f.tag n a).1.contextStack.length = f.contextStack.length ∧
    (f.contextStack = [] → (f.tag n a).1 = f) ∧
    (∀ (ctx : TagContext) (rest : List TagContext) (n2 : String) (v : AttrValue),
      f.contextStack = ctx :: rest →
      (f.tag n a).1.attr n2 v = .error .tagAlreadyOpened) := by
  refine ⟨rfl, ensureTopOpened_tagStack f, ensureTopOpened_ctxLen f, ?_, ?_⟩
  · intro h
    show f.ensureTopOpened = f
    unfold Fragment.ensureTopOpened
    rw [h]
  · intro ctx rest n2 v h
    show (f.ensureTopOpened).attr n2 v = .error .tagAlreadyOpened
    unfold Fragment.ensureTopOpened
    rw [h]
    by_cases ho : ctx.opened <;>
      simp [ho, Fragment.attr, TagContext.add_attr, h, Except.map]

/-- C4 witness: the amended theorem at an empty Builder and at a Builder with
one pending open `div`. -/
theorem tag_effect_amended_witness :
    ((Fragment.init.tag "div" []).1 = Fragment.init) ∧
    (Fragment.attr
        ((((Fragment.init.tag "div" []).1.enterScope (Fragment.init.tag "div" []).2).1.tag
            "span" []).1)
        "id" (none : AttrValue) = .error .tagAlreadyOpened) :=
  ⟨(tag_effect_amended Fragment.init "div" []).2.2.2.1 rfl,
   (tag_effect_amended
      ((Fragment.init.tag "div" []).1.enterScope (Fragment.init.tag "div" []).2).1
      "span" []).2.2.2.2 ⟨"div", false, [], false⟩ [] "id" none rfl⟩

/-- C5: `render` fails with `UnclosedTags` exactly when the open-tag stack is
non-empty, and on an empty stack it returns the concatenation of the appended
chunks.  The model's `render` is a pure function of the state — the source
only reads `_tag_stack` and `_parts` — so the buffered content is untouched
in both outcomes. -/
theorem render_unclosed_iff (f : Fragment) :
    (f.render = .error .unclosedTags ↔ f.tagStack ≠ []) ∧
    (f.tagStack = [] → f.render = .ok (String.join f.parts)) ∧
    (f.tagStack ≠ [] → f.render = .error .unclosedTags) := by
  rcases ht : f.tagStack with _ | ⟨n, rest⟩ <;> simp [Fragment.render, ht]

/-- C5 witness: both outcomes at concrete Builders. -/
theorem render_unclosed_iff_witness :
    Fragment.render ⟨["<p>", "x", "</p>"], [], []⟩ = .ok "<p>x</p>" ∧
    Fragment.render ⟨["<div>"], ["div"], [⟨"div", false, [], true⟩]⟩
      = .error .unclosedTags :=
  ⟨(render_unclosed_iff ⟨["<p>", "x", "</p>"], [], []⟩).2.1 rfl,
   (render_unclosed_iff ⟨["<div>"], ["div"], [⟨"div", false, [], true⟩]⟩).2.2
     (by decide)⟩

/-- C6: on an Opened context both `add_attr` and `add_class` fail with
`TagAlreadyOpened` — the check precedes any mutation, so the attribute map
(and all other state) is untouched, as the pure error result records — and on
a Pending context neither fails. -/
theorem attr_ops_state_guard (ctx : TagContext) (n : String) (v : AttrValue)
    (c : String) :
    (ctx.opened = true →
      ctx.add_attr n v = .error .tagAlreadyOpened ∧
      ctx.add_class c = .error .tagAlreadyOpened) ∧
    (ctx.opened = false →
      (ctx.add_attr n v).isOk = true ∧ (ctx.add_class c).isOk = true) := by
  constructor
  · intro h
    constructor <;> simp [TagContext.add_attr, TagContext.add_class, h]
  · intro h
    constructor
    · simp [TagContext.add_attr, h, Except.isOk, Except.toBool]
    · by_cases ht : pyTruthy (classRead ctx.attrs) <;>
        simp [TagContext.add_class, h, ht, Except.isOk, Except.toBool]

/-- C6 witness: an Opened and a Pending `div` context. -/
theorem attr_ops_state_guard_witness :
    ((TagContext.mk "div" false [] true).add_attr "id" none
      = .error .tagAlreadyOpened) ∧
    ((TagContext.mk "div" false [] true).add_class "c"
      = .error .tagAlreadyOpened) ∧
    (((TagContext.mk "div" false [] false).add_attr "id" none).isOk = true) ∧
    (((TagContext.mk "div" false [] false).add_class "c").isOk = true) :=
  ⟨((attr_ops_state_guard ⟨"div", false, [], true⟩ "id" none "c").1 rfl).1,
   ((attr_ops_state_guard ⟨"div", false, [], true⟩ "id" none "c").1 rfl).2,
   ((attr_ops_state_guard ⟨"div", false, [], false⟩ "id" none "c").2 rfl).1,
   ((attr_ops_state_guard ⟨"div", false, [], false⟩ "id" none "c").2 rfl).2⟩

/-- C7: on a Pending context, `add_class` reads the existing class value —
checking the `class_` alias first and the raw `class` key second, exactly as
the source's `attrs.get("class_") or attrs.get("class")` — and when that read
is truthy with display text `v` it stores `v`, one space, and the new token
under the `class_` key; when it is falsy it stores just the new token.  The
spec's Example 3 pipeline renders
`<div class="panel admin active">Panel Content</div>`. -/
theorem add_class_append_semantics :
    (∀ (ctx : TagContext) (c : String), ctx.opened = false →
      (pyTruthy (classRead ctx.attrs) = true →
        ctx.add_class c = .ok { ctx with attrs := dictSet ctx.attrs "class_" (some (PyVal.ofString (pyStr (classRead ctx.attrs) ++ " " ++ c))) }) ∧
      (pyTruthy (classRead ctx.attrs) = false →
        ctx.add_class c = .ok { ctx with attrs := dictSet ctx.attrs "class_" (some (PyVal.ofString c)) })) ∧
    ((((((Fragment.init.tag "div" [("class_", some (PyVal.ofString "panel"))]).1.enterScope
            (Fragment.init.tag "div" [("class_", some (PyVal.ofString "panel"))]).2).1.classes
          "admin").toOption.bind
        (fun f3 => (f3.classes "active").toOption)).bind
      (fun f4 =>
        ((f4.text (some (PyVal.ofString "Panel Content"))).exitScope false).map
          Fragment.render))
      = some (Except.ok "<div class=\"panel admin active\">Panel Content</div>")) := by
  constructor
  · intro ctx c h
    constructor <;> intro ht <;> simp [TagContext.add_class, h, ht]
  · decide

/-- C7 witness: the append and fresh-set branches at concrete Pending
contexts. -/
theorem add_class_append_semantics_witness :
    (TagContext.mk "div" false [("class_", some (PyVal.ofString "panel"))] false).add_class
        "admin"
      = .ok ⟨"div", false, [("class_", some (PyVal.ofString "panel admin"))], false⟩ ∧
    (TagContext.mk "div" false [] false).add_class "x"
      = .ok ⟨"div", false, [("class_", some (PyVal.ofString "x"))], false⟩ :=
  ⟨(add_class_append_semantics.1
      ⟨"div", false, [("class_", some (PyVal.ofString "panel"))], false⟩ "admin" rfl).1
      (by decide),
   (add_class_append_semantics.1 ⟨"div", false, [], false⟩ "x" rfl).2 (by decide)⟩

/-- C8: for a (case-insensitively) void tag name, the created context is
self-closing; scope entry appends exactly the ` />`-form opening text and
touches neither stack, scope exit appends nothing, and the tag-name stack —
hence whether `render` raises `UnclosedTags` — is exactly as before the
element. -/
theorem void_tag_scope (f : Fragment) (name : String)
    (attrs : List (String × AttrValue)) (h : isVoid name = true) :
    ((f.tag name attrs).2.selfClosing = true) ∧
    (((f.tag name attrs).1.enterScope (f.tag name attrs).2).1.tagStack
      = (f.tag name attrs).1.tagStack) ∧
    (((f.tag name attrs).1.enterScope (f.tag name attrs).2).1.contextStack
      = (f.tag name attrs).1.contextStack) ∧
    (((f.tag name attrs).1.enterScope (f.tag name attrs).2).1.parts
      = (f.tag name attrs).1.parts ++ ["<" ++ name ++ attrString attrs ++ " />"]) ∧
    ((((f.tag name attrs).1.enterScope (f.tag name attrs).2).1).exitScope true
      = some ((f.tag name attrs).1.enterScope (f.tag name attrs).2).1) ∧
    (((f.tag name attrs).1.enterScope (f.tag name attrs).2).1.tagStack = f.tagStack) ∧
    ((((f.tag name attrs).1.enterScope (f.tag name attrs).2).1.render).isOk
      = (f.render).isOk) := by
  refine ⟨h, ?_, ?_, ?_, ?_, ?_, ?_⟩ <;>
    simp [Fragment.tag, Fragment.enterScope, Fragment.exitScope, h,
      TagContext.openingText, ensureTopOpened_tagStack, render_isOk]

/-- C8 witness: an upper-case `IMG` with one attribute at the empty
Builder. -/
theorem void_tag_scope_witness :
    (((Fragment.init.tag "IMG" [("src", some (PyVal.ofString "test.jpg"))]).1.enterScope
      (Fragment.init.tag "IMG" [("src", some (PyVal.ofString "test.jpg"))]).2).1.parts
      = ["<IMG src=\"test.jpg\" />"]) ∧
    (((Fragment.init.tag "IMG" [("src", some (PyVal.ofString "test.jpg"))]).1.enterScope
      (Fragment.init.tag "IMG" [("src", some (PyVal.ofString "test.jpg"))]).2).1.tagStack
      = []) := by
  have hw := void_tag_scope Fragment.init "IMG"
    [("src", some (PyVal.ofString "test.jpg"))] (by decide)
  refine ⟨?_, ?_⟩
  · rw [hw.2.2.2.1]; decide
  · exact hw.2.2.2.2.2.1

/-- C9: a Builder starts with both stacks empty, and every operation —
`tag`, scope entry, scope exit, `text`, `raw`, `attr`, `classes`, `embed`
(the source's `fragment`), `clear` — preserves equality of the two stacks'
lengths; self-closing handling pushes onto neither stack.  `render` reads the
state without writing it (its pure signature), so it preserves the invariant
trivially. -/
theorem stack_length_invariant :
    StackInv Fragment.init ∧
    (∀ (f : Fragment) (n : String) (a : List (String × AttrValue)),
      StackInv f → StackInv (f.tag n a).1) ∧
    (∀ (f : Fragment) (c : TagContext), StackInv f → StackInv (f.enterScope c).1) ∧
    (∀ (f : Fragment) (b : Bool) (f1 : Fragment),
      StackInv f → f.exitScope b = some f1 → StackInv f1) ∧
    (∀ (f : Fragment) (t : AttrValue), StackInv f → StackInv (f.text t)) ∧
    (∀ (f : Fragment) (t : AttrValue), StackInv f → StackInv (f.raw t)) ∧
    (∀ (f : Fragment) (n : String) (v : AttrValue) (f1 : Fragment),
      StackInv f → f.attr n v = .ok f1 → StackInv f1) ∧
    (∀ (f : Fragment) (c : String) (f1 : Fragment),
      StackInv f → f.classes c = .ok f1 → StackInv f1) ∧
    (∀ (f g : Fragment), StackInv f → StackInv (f.embed g).1) ∧
    (∀ f : Fragment, StackInv f.clear) := by
  have hiff : ∀ f : Fragment,
      StackInv f ↔ f.tagStack.length = f.contextStack.length := fun f => Iff.rfl
  have hens : ∀ f : Fragment, StackInv f → StackInv f.ensureTopOpened := by
    intro f h
    rw [hiff, ensureTopOpened_tagStack, ensureTopOpened_ctxLen]
    exact h
  refine ⟨rfl, ?_, ?_, ?_, ?_, ?_, ?_, ?_, ?_, ?_⟩
  · intro f n a h
    exact hens f h
  · intro f c h
    have h' : f.tagStack.length = f.contextStack.length := h
    by_cases hs : c.selfClosing <;> by_cases ho : c.opened <;>
      simp only [Fragment.enterScope, hs, ho, if_true, if_false] <;>
      rw [hiff] <;> simpa using h'
  · intro f b f1 h hex
    rw [hiff] at h ⊢
    cases b with
    | true => simp [Fragment.exitScope] at hex; rw [← hex]; exact h
    | false =>
        rcases hcs : f.contextStack with _ | ⟨ctx, restC⟩ <;>
          rcases hts : f.tagStack with _ | ⟨n, restT⟩ <;>
          simp [Fragment.exitScope, hcs, hts] at hex
        rw [hcs, hts] at h
        rw [← hex]
        simpa using h
  · intro f t h
    cases t with
    | none => exact h
    | some v =>
        have h1 := hens f h
        rw [hiff] at h1 ⊢
        simpa [Fragment.text] using h1
  · intro f t h
    cases t with
    | none => exact h
    | some v =>
        have h1 := hens f h
        rw [hiff] at h1 ⊢
        simpa [Fragment.raw] using h1
  · intro f n v f1 h ha
    rw [hiff] at h ⊢
    rcases hcs : f.contextStack with _ | ⟨ctx, rest⟩ <;>
      rw [Fragment.attr, hcs] at ha
    · simp at ha
    · by_cases ho : ctx.opened <;> simp [TagContext.add_attr, ho, Except.map] at ha
      rw [hcs] at h
      rw [← ha]
      simpa using h
  · intro f c f1 h ha
    rw [hiff] at h ⊢
    rcases hcs : f.contextStack with _ | ⟨ctx, rest⟩ <;>
      rw [Fragment.classes, hcs] at ha
    · simp at ha
    · rw [hcs] at h
      by_cases ho : ctx.opened <;>
        by_cases ht : pyTruthy (classRead ctx.attrs) <;>
        simp [TagContext.add_class, ho, ht, Except.map] at ha <;>
        rw [← ha] <;> simpa using h
  · intro f g h
    have h1 := hens f h
    rw [hiff] at h1 ⊢
    rcases hr : g.render with e | s <;> simp [Fragment.embed, hr]
    · exact h1
    · simpa using h1
  · intro f
    rfl

/-- C9 witness: the invariant clauses at concrete states, including a
`tag`/entry/exit round trip and a `text` write. -/
theorem stack_length_invariant_witness :
    StackInv Fragment.init ∧
    StackInv (Fragment.init.tag "div" []).1 ∧
    StackInv ((Fragment.init.tag "div" []).1.enterScope (Fragment.init.tag "div" []).2).1 ∧
    StackInv (Fragment.mk ["<div>", "</div>"] [] []) ∧
    StackInv (Fragment.init.text (some (PyVal.ofString "x"))) :=
  ⟨stack_length_invariant.1,
   stack_length_invariant.2.1 Fragment.init "div" [] (by decide),
   stack_length_invariant.2.2.1 (Fragment.init.tag "div" []).1
     (Fragment.init.tag "div" []).2 (by decide),
   stack_length_invariant.2.2.2.1
     ((Fragment.init.tag "div" []).1.enterScope (Fragment.init.tag "div" []).2).1 false
     (Fragment.mk ["<div>", "</div>"] [] []) (by decide) (by decide),
   stack_length_invariant.2.2.2.2.1 Fragment.init (some (PyVal.ofString "x"))
     (by decide)⟩

/-- C10: `__str__` is literally `return self.render()`, so converting a
Builder to a string is the same function as `render`: the identical rendered
text on an empty tag stack, the identical `UnclosedTags` failure
otherwise. -/
theorem str_eq_render (f : Fragment) :
    f.toStr = f.render ∧
    f.toStr = (if f.tagStack.isEmpty then Except.ok (String.join f.parts)
               else Except.error MfError.unclosedTags) :=
  ⟨rfl, rfl⟩
